import Mathlib

/-!
Package autopprof: signal-triggered pprof capture.

A shallow embedding of `autopprof.go`.

The Go code is a thin layer over external collaborators (temp-file creation,
the `runtime/pprof` primitives, `time.Sleep`, `log`, `os/exec`, `os/signal`).
The embedding makes the collaborators explicit:

* every call into a collaborator is recorded, in program order, as an `Effect`
  (inside a `Capture` method) or an `Event` (inside the capture loop);
* what each collaborator answers during one cycle is read from an `Env`, so
  every theorem quantifies over all outcomes of the collaborators;
* `log.Fatalf` ends the process, which is the result `Result.exited` of a
  `Capture` method and the status `Status.exited` of the loop.

The goroutine started by `Capture` is represented by the trace of `capture`;
scheduling against the host program is outside the embedding.
-/

namespace Autopprof

/-- Go `error` value: `nil` is `none`, a non-nil error is `some` of its message. -/
abbrev GoError := Option String

/-- Go `time.Duration`: a count of nanoseconds. -/
abbrev Duration := Int

/-- Go `time.Second`. -/
def Second : Duration := 1000000000

/-- Signals of `syscall` that the Go runtime treats as asynchronous requests to
the program. -/
inductive Signal
  | SIGHUP
  | SIGINT
  | SIGQUIT
  | SIGTERM
  deriving DecidableEq, Repr

/-- Value built by `exec.Command(name, arg...)`. -/
structure Cmd where
  Path : String
  Args : List String
  deriving DecidableEq, Repr

/-- Calls made by the `Capture` methods and `newTemp`, in program order.
An open `*os.File` is identified by its name. -/
inductive Effect
  /-- Call `ioutil.TempFile(dir, pattern)`. -/
  | tempFile (dir pattern : String)
  /-- Call `log.Fatalf` with the formatted message; the process exits. -/
  | fatalf (msg : String)
  /-- Call `pprof.StartCPUProfile(f)`. -/
  | startCPUProfile (f : String)
  /-- Call `time.Sleep(d)`. -/
  | sleep (d : Duration)
  /-- Call `pprof.StopCPUProfile()`. -/
  | stopCPUProfile
  /-- Call `pprof.WriteHeapProfile(f)`. -/
  | writeHeapProfile (f : String)
  /-- Call `pprof.Lookup(name).WriteTo(f, debug)`. -/
  | lookupWriteTo (name : String) (f : String) (debug : Int)
  /-- Call `f.Close()`. -/
  | close (f : String)
  deriving DecidableEq, Repr

/-- How a call of a `Capture` method ends: it returns `(profile, err)`, or the
process exits inside it. -/
inductive Result
  | returned (profile : String) (err : GoError)
  | exited
  deriving DecidableEq, Repr

/-- Answers of the collaborators during one capture cycle. -/
structure Env where
  /-- Result of `ioutil.TempFile`: the name of the created file, or the error. -/
  tempFile : Except String String
  /-- Result of `pprof.StartCPUProfile`. -/
  startCPUProfile : GoError
  /-- Result of `pprof.WriteHeapProfile`. -/
  writeHeapProfile : GoError
  /-- Result of `pprof.Lookup(name).WriteTo`, per profile name. -/
  writeTo : String → GoError
  /-- Result of `f.Close()`. -/
  close : GoError
  /-- Result of `cmd.Run()`: non-nil when the command cannot be started or
  exits non-zero. -/
  run : Cmd → GoError

/-- Go interface `Profile`: one method `Capture() (profile string, err error)`.
A call yields the effects it performed and how it ended. -/
structure Profile where
  Capture : Env → List Effect × Result

/-- Function `newTemp`: the created file, or `none` when `log.Fatalf` ended the
process. -/
def newTemp (e : Env) : List Effect × Option String :=
  match e.tempFile with
  | .ok f => ([.tempFile "" "profile-"], some f)
  | .error err =>
    ([.tempFile "" "profile-",
      .fatalf ("Cannot create new temp profile file: " ++ err)], none)

/-- Go struct `CPUProfile`. -/
structure CPUProfile where
  Duration : Duration
  deriving DecidableEq, Repr

/-- Method `CPUProfile.Capture`. -/
def CPUProfile.Capture (p : CPUProfile) (e : Env) : List Effect × Result :=
  let dur := if p.Duration = 0 then 30 * Second else p.Duration
  match newTemp e with
  | (t, none) => (t, .exited)
  | (t, some f) =>
    match e.startCPUProfile with
    | some _ => (t ++ [.startCPUProfile f], .returned "" none)
    | none =>
      match e.close with
      | some _ =>
        (t ++ [.startCPUProfile f, .sleep dur, .stopCPUProfile, .close f],
          .returned "" none)
      | none =>
        (t ++ [.startCPUProfile f, .sleep dur, .stopCPUProfile, .close f],
          .returned f none)

/-- Go struct `HeapProfile`. -/
structure HeapProfile where
  deriving DecidableEq, Repr

/-- Method `HeapProfile.Capture`. -/
def HeapProfile.Capture (_p : HeapProfile) (e : Env) : List Effect × Result :=
  match newTemp e with
  | (t, none) => (t, .exited)
  | (t, some f) =>
    match e.writeHeapProfile with
    | some _ => (t ++ [.writeHeapProfile f], .returned "" none)
    | none =>
      match e.close with
      | some _ => (t ++ [.writeHeapProfile f, .close f], .returned "" none)
      | none => (t ++ [.writeHeapProfile f, .close f], .returned f none)

/-- Go struct `GoRoutineProfile`. -/
structure GoRoutineProfile where
  deriving DecidableEq, Repr

/-- Method `GoRoutineProfile.Capture`. -/
def GoRoutineProfile.Capture (_p : GoRoutineProfile) (e : Env) : List Effect × Result :=
  match newTemp e with
  | (t, none) => (t, .exited)
  | (t, some f) =>
    match e.writeTo "goroutine" with
    | some err => (t ++ [.lookupWriteTo "goroutine" f 0], .returned "" (some err))
    | none =>
      match e.close with
      | some _ => (t ++ [.lookupWriteTo "goroutine" f 0, .close f], .returned "" none)
      | none => (t ++ [.lookupWriteTo "goroutine" f 0, .close f], .returned f none)

/-- Go struct `ThreadCreateProfile`. -/
structure ThreadCreateProfile where
  deriving DecidableEq, Repr

/-- Method `ThreadCreateProfile.Capture`. -/
def ThreadCreateProfile.Capture (_p : ThreadCreateProfile) (e : Env) :
    List Effect × Result :=
  match newTemp e with
  | (t, none) => (t, .exited)
  | (t, some f) =>
    match e.writeTo "threadcreate" with
    | some err => (t ++ [.lookupWriteTo "threadcreate" f 0], .returned "" (some err))
    | none =>
      match e.close with
      | some _ => (t ++ [.lookupWriteTo "threadcreate" f 0, .close f], .returned "" none)
      | none => (t ++ [.lookupWriteTo "threadcreate" f 0, .close f], .returned f none)

/-- Go struct `AllocsProfile`. -/
structure AllocsProfile where
  deriving DecidableEq, Repr

/-- Method `AllocsProfile.Capture`. -/
def AllocsProfile.Capture (_p : AllocsProfile) (e : Env) : List Effect × Result :=
  match newTemp e with
  | (t, none) => (t, .exited)
  | (t, some f) =>
    match e.writeTo "allocs" with
    | some err => (t ++ [.lookupWriteTo "allocs" f 0], .returned "" (some err))
    | none =>
      match e.close with
      | some _ => (t ++ [.lookupWriteTo "allocs" f 0, .close f], .returned "" none)
      | none => (t ++ [.lookupWriteTo "allocs" f 0, .close f], .returned f none)

/-- Go struct `BlockProfile`. -/
structure BlockProfile where
  deriving DecidableEq, Repr

/-- Method `BlockProfile.Capture`. -/
def BlockProfile.Capture (_p : BlockProfile) (e : Env) : List Effect × Result :=
  match newTemp e with
  | (t, none) => (t, .exited)
  | (t, some f) =>
    match e.writeTo "block" with
    | some err => (t ++ [.lookupWriteTo "block" f 0], .returned "" (some err))
    | none =>
      match e.close with
      | some _ => (t ++ [.lookupWriteTo "block" f 0, .close f], .returned "" none)
      | none => (t ++ [.lookupWriteTo "block" f 0, .close f], .returned f none)

/-- Go struct `MutexProfile`. -/
structure MutexProfile where
  deriving DecidableEq, Repr

/-- Method `MutexProfile.Capture`. -/
def MutexProfile.Capture (_p : MutexProfile) (e : Env) : List Effect × Result :=
  match newTemp e with
  | (t, none) => (t, .exited)
  | (t, some f) =>
    match e.writeTo "mutex" with
    | some err => (t ++ [.lookupWriteTo "mutex" f 0], .returned "" (some err))
    | none =>
      match e.close with
      | some _ => (t ++ [.lookupWriteTo "mutex" f 0, .close f], .returned "" none)
      | none => (t ++ [.lookupWriteTo "mutex" f 0, .close f], .returned f none)

/-- `CPUProfile` implements `Profile`. -/
def CPUProfile.toProfile (p : CPUProfile) : Profile := ⟨p.Capture⟩

/-- `HeapProfile` implements `Profile`. -/
def HeapProfile.toProfile (p : HeapProfile) : Profile := ⟨p.Capture⟩

/-- `GoRoutineProfile` implements `Profile`. -/
def GoRoutineProfile.toProfile (p : GoRoutineProfile) : Profile := ⟨p.Capture⟩

/-- `ThreadCreateProfile` implements `Profile`. -/
def ThreadCreateProfile.toProfile (p : ThreadCreateProfile) : Profile := ⟨p.Capture⟩

/-- `AllocsProfile` implements `Profile`. -/
def AllocsProfile.toProfile (p : AllocsProfile) : Profile := ⟨p.Capture⟩

/-- `BlockProfile` implements `Profile`. -/
def BlockProfile.toProfile (p : BlockProfile) : Profile := ⟨p.Capture⟩

/-- `MutexProfile` implements `Profile`. -/
def MutexProfile.toProfile (p : MutexProfile) : Profile := ⟨p.Capture⟩

/-- What the goroutine running `capture` does, in program order. -/
inductive Event
  /-- Call `signal.Notify(c, sig)` on a channel `c` of capacity `cap`. -/
  | notify (cap : Nat) (sig : Signal)
  /-- Call `fmt.Println(s)`. -/
  | println (s : String)
  /-- Receive `<-c` completed. -/
  | recv
  /-- Call `log.Println(s)`. -/
  | logPrintln (s : String)
  /-- Call `p.Capture()`, with the effects it performed and how it ended. -/
  | capture (effects : List Effect) (res : Result)
  /-- Call `log.Printf`, with the formatted message. -/
  | logPrintf (msg : String)
  /-- Call `cmd.Run()` on the given command, with the error it returned. -/
  | run (cmd : Cmd) (err : GoError)
  deriving DecidableEq, Repr

/-- Where the goroutine is after the signals delivered so far: blocked on `<-c`,
or gone because the process exited. -/
inductive Status
  | waiting
  | exited
  deriving DecidableEq, Repr

/-- Statement `if err != nil { log.Printf(format, err) }`, where `format` is
`pre` followed by `%v`. -/
def logIfErr (pre : String) (err : GoError) : List Event :=
  match err with
  | some m => [.logPrintf (pre ++ m)]
  | none => []

/-- One iteration of the `for` loop of `capture`, from the completed receive
`<-c` to the end of the loop body. -/
def cycle (p : Profile) (e : Env) : List Event × Status :=
  match p.Capture e with
  | (eff, .exited) =>
    ([.recv, .logPrintln "Starting to capture.", .capture eff .exited], .exited)
  | (eff, .returned profile err) =>
    let cmd : Cmd := ⟨"go", ["tool", "pprof", "-http=:", profile]⟩
    ([.recv, .logPrintln "Starting to capture.", .capture eff (.returned profile err)]
      ++ logIfErr "Cannot capture profile: " err
      ++ [.logPrintf ("Starting go tool pprof " ++ profile), .run cmd (e.run cmd)]
      ++ logIfErr "Cannot start pprof UI: " (e.run cmd),
     .waiting)

/-- The `for` loop of `capture`, driven by the signals delivered to the process
while the goroutine is blocked on `<-c`, each with the answers of the
collaborators for the cycle it starts. `sig` is the signal passed to
`signal.Notify`: only that signal is relayed to `c`, and nothing else sends on
`c`. A signal that is not notified starts no cycle; it keeps the default
disposition of the Go runtime, which for each signal of `Signal` is to exit the
program (the host program is taken not to handle signals itself, as in
`examples/goroutineprofile`). -/
def loop (sig : Signal) (p : Profile) : List (Signal × Env) → List Event × Status
  | [] => ([], .waiting)
  | (s, e) :: rest =>
    if s = sig then
      match cycle p e with
      | (ev, .exited) => (ev, .exited)
      | (ev, .waiting) => (ev ++ (loop sig p rest).1, (loop sig p rest).2)
    else ([], .exited)

/-- Function `capture`. -/
def capture (p : Profile) (deliveries : List (Signal × Env)) : List Event × Status :=
  ([.notify 1 .SIGQUIT,
    .println "Send SIGQUIT (CTRL+\\) to the process to capture..."]
    ++ (loop .SIGQUIT p deliveries).1,
   (loop .SIGQUIT p deliveries).2)

/-- Function `Capture`: `go capture(p)`; the trace is that of the new goroutine. -/
def Capture (p : Profile) (deliveries : List (Signal × Env)) : List Event × Status :=
  capture p deliveries

/-- The seven implementations of `Profile` in `autopprof.go`, the CPU one with
duration `d`. -/
def variants (d : Duration) : List Profile :=
  [CPUProfile.toProfile ⟨d⟩, HeapProfile.toProfile {}, GoRoutineProfile.toProfile {},
    ThreadCreateProfile.toProfile {}, AllocsProfile.toProfile {},
    BlockProfile.toProfile {}, MutexProfile.toProfile {}]

/-! Sample environments -/

/-- Every collaborator succeeds; the temp file is `/tmp/profile-123`. -/
def envOk : Env :=
  { tempFile := .ok "/tmp/profile-123"
    startCPUProfile := none
    writeHeapProfile := none
    writeTo := fun _ => none
    close := none
    run := fun _ => none }

/-- The temp file is created, then `pprof.StartCPUProfile` fails because CPU
profiling is already enabled. -/
def envStartFails : Env :=
  { envOk with startCPUProfile := some "cpu profiling already in use" }

/-- The temp file is created, then every write of a profile into it fails. -/
def envWriteFails : Env :=
  { envOk with
    writeHeapProfile := some "write /tmp/profile-123: no space left on device"
    writeTo := fun _ => some "write /tmp/profile-123: no space left on device" }

/-- The profile is written, then `f.Close()` fails. -/
def envCloseFails : Env :=
  { envOk with close := some "close /tmp/profile-123: input/output error" }

/-- The temp file cannot be created. -/
def envTempFails : Env :=
  { envOk with tempFile := .error "open /tmp/profile-123: permission denied" }

/-- The capture works, then the viewer command fails. -/
def envRunFails : Env :=
  { envOk with run := fun _ => some "exit status 1" }

/-! The `Capture` methods -/

/-- The five variants built on `pprof.Lookup(name).WriteTo` hand a failure of
the write back to the caller. -/
theorem lookup_variants_return_write_error (e : Env) (f : String)
    (hf : e.tempFile = .ok f) :
    (∀ m, e.writeTo "goroutine" = some m →
      (GoRoutineProfile.Capture {} e).2 = .returned "" (some m)) ∧
    (∀ m, e.writeTo "threadcreate" = some m →
      (ThreadCreateProfile.Capture {} e).2 = .returned "" (some m)) ∧
    (∀ m, e.writeTo "allocs" = some m →
      (AllocsProfile.Capture {} e).2 = .returned "" (some m)) ∧
    (∀ m, e.writeTo "block" = some m →
      (BlockProfile.Capture {} e).2 = .returned "" (some m)) ∧
    (∀ m, e.writeTo "mutex" = some m →
      (MutexProfile.Capture {} e).2 = .returned "" (some m)) := by
  refine ⟨?_, ?_, ?_, ?_, ?_⟩ <;> intro m hm
  · simp [GoRoutineProfile.Capture, newTemp, hf, hm]
  · simp [ThreadCreateProfile.Capture, newTemp, hf, hm]
  · simp [AllocsProfile.Capture, newTemp, hf, hm]
  · simp [BlockProfile.Capture, newTemp, hf, hm]
  · simp [MutexProfile.Capture, newTemp, hf, hm]

/-- C1 (code at the failing input): the temp file is created and the profiling
primitive fails, yet `CPUProfile.Capture` and `HeapProfile.Capture` return the
empty path with a nil error, where the claim asks for a non-nil error. -/
theorem C1_cpu_heap_discard_primitive_failure :
    CPUProfile.Capture ⟨Second⟩ envStartFails =
      ([.tempFile "" "profile-", .startCPUProfile "/tmp/profile-123"],
        .returned "" none) ∧
    HeapProfile.Capture {} envWriteFails =
      ([.tempFile "" "profile-", .writeHeapProfile "/tmp/profile-123"],
        .returned "" none) := by
  decide

/-- C3: when the temp file is created as `f` and the close succeeds, each of
the seven variants whose own profiling primitive succeeds performs exactly: one
`ioutil.TempFile("", "profile-")`, the write of its own profile into `f` (CPU
sampling around a sleep, the heap profile, or the named profile "goroutine",
"threadcreate", "allocs", "block", "mutex"), one close of `f`; and returns
`(f, nil)`. -/
theorem C3_capture_success (e : Env) (f : String)
    (hf : e.tempFile = .ok f) (hc : e.close = none) :
    (∀ d : Duration, e.startCPUProfile = none →
      CPUProfile.Capture ⟨d⟩ e =
        ([.tempFile "" "profile-", .startCPUProfile f,
          .sleep (if d = 0 then 30 * Second else d), .stopCPUProfile, .close f],
          .returned f none)) ∧
    (e.writeHeapProfile = none →
      HeapProfile.Capture {} e =
        ([.tempFile "" "profile-", .writeHeapProfile f, .close f],
          .returned f none)) ∧
    (e.writeTo "goroutine" = none →
      GoRoutineProfile.Capture {} e =
        ([.tempFile "" "profile-", .lookupWriteTo "goroutine" f 0, .close f],
          .returned f none)) ∧
    (e.writeTo "threadcreate" = none →
      ThreadCreateProfile.Capture {} e =
        ([.tempFile "" "profile-", .lookupWriteTo "threadcreate" f 0, .close f],
          .returned f none)) ∧
    (e.writeTo "allocs" = none →
      AllocsProfile.Capture {} e =
        ([.tempFile "" "profile-", .lookupWriteTo "allocs" f 0, .close f],
          .returned f none)) ∧
    (e.writeTo "block" = none →
      BlockProfile.Capture {} e =
        ([.tempFile "" "profile-", .lookupWriteTo "block" f 0, .close f],
          .returned f none)) ∧
    (e.writeTo "mutex" = none →
      MutexProfile.Capture {} e =
        ([.tempFile "" "profile-", .lookupWriteTo "mutex" f 0, .close f],
          .returned f none)) := by
  refine ⟨?_, ?_, ?_, ?_, ?_, ?_, ?_⟩
  · intro d hp
    simp [CPUProfile.Capture, newTemp, hf, hc, hp]
  · intro hp
    simp [HeapProfile.Capture, newTemp, hf, hc, hp]
  · intro hp
    simp [GoRoutineProfile.Capture, newTemp, hf, hc, hp]
  · intro hp
    simp [ThreadCreateProfile.Capture, newTemp, hf, hc, hp]
  · intro hp
    simp [AllocsProfile.Capture, newTemp, hf, hc, hp]
  · intro hp
    simp [BlockProfile.Capture, newTemp, hf, hc, hp]
  · intro hp
    simp [MutexProfile.Capture, newTemp, hf, hc, hp]

/-- C3 at `envOk`, where every collaborator succeeds: all seven variants. -/
theorem C3_capture_success_witness :
    envOk.tempFile = .ok "/tmp/profile-123" ∧ envOk.close = none ∧
    CPUProfile.Capture ⟨2 * Second⟩ envOk =
      ([.tempFile "" "profile-", .startCPUProfile "/tmp/profile-123",
        .sleep 2000000000, .stopCPUProfile, .close "/tmp/profile-123"],
        .returned "/tmp/profile-123" none) ∧
    HeapProfile.Capture {} envOk =
      ([.tempFile "" "profile-", .writeHeapProfile "/tmp/profile-123",
        .close "/tmp/profile-123"], .returned "/tmp/profile-123" none) ∧
    GoRoutineProfile.Capture {} envOk =
      ([.tempFile "" "profile-", .lookupWriteTo "goroutine" "/tmp/profile-123" 0,
        .close "/tmp/profile-123"], .returned "/tmp/profile-123" none) ∧
    ThreadCreateProfile.Capture {} envOk =
      ([.tempFile "" "profile-", .lookupWriteTo "threadcreate" "/tmp/profile-123" 0,
        .close "/tmp/profile-123"], .returned "/tmp/profile-123" none) ∧
    AllocsProfile.Capture {} envOk =
      ([.tempFile "" "profile-", .lookupWriteTo "allocs" "/tmp/profile-123" 0,
        .close "/tmp/profile-123"], .returned "/tmp/profile-123" none) ∧
    BlockProfile.Capture {} envOk =
      ([.tempFile "" "profile-", .lookupWriteTo "block" "/tmp/profile-123" 0,
        .close "/tmp/profile-123"], .returned "/tmp/profile-123" none) ∧
    MutexProfile.Capture {} envOk =
      ([.tempFile "" "profile-", .lookupWriteTo "mutex" "/tmp/profile-123" 0,
        .close "/tmp/profile-123"], .returned "/tmp/profile-123" none) :=
  have h := C3_capture_success envOk "/tmp/profile-123" rfl rfl
  ⟨rfl, rfl, h.1 (2 * Second) rfl, h.2.1 rfl, h.2.2.1 rfl, h.2.2.2.1 rfl,
    h.2.2.2.2.1 rfl, h.2.2.2.2.2.1 rfl, h.2.2.2.2.2.2 rfl⟩

/-- C4: whatever the collaborators answer, `CPUProfile{Duration: 0}.Capture()`
performs the same effects and ends the same way as
`CPUProfile{Duration: 30 * time.Second}.Capture()`; and once sampling has
started, those effects include a sleep of 30 seconds (30000000000 ns). -/
theorem C4_zero_duration_is_thirty_seconds (e : Env) :
    CPUProfile.Capture ⟨0⟩ e = CPUProfile.Capture ⟨30 * Second⟩ e ∧
    (∀ f, e.tempFile = .ok f → e.startCPUProfile = none →
      (CPUProfile.Capture ⟨0⟩ e).1 =
        [.tempFile "" "profile-", .startCPUProfile f, .sleep 30000000000,
          .stopCPUProfile, .close f]) := by
  constructor
  · simp [CPUProfile.Capture, Second]
  · intro f hf hs
    cases hc : e.close <;> simp [CPUProfile.Capture, newTemp, hf, hs, hc, Second]

/-- C4 at `envOk`: the zero duration sleeps 30 seconds. -/
theorem C4_zero_duration_is_thirty_seconds_witness :
    CPUProfile.Capture ⟨0⟩ envOk = CPUProfile.Capture ⟨30 * Second⟩ envOk ∧
    (CPUProfile.Capture ⟨0⟩ envOk).1 =
      [.tempFile "" "profile-", .startCPUProfile "/tmp/profile-123",
        .sleep 30000000000, .stopCPUProfile, .close "/tmp/profile-123"] :=
  ⟨(C4_zero_duration_is_thirty_seconds envOk).1,
    (C4_zero_duration_is_thirty_seconds envOk).2 "/tmp/profile-123" rfl rfl⟩

/-- C9: for every non-zero duration `d`, when the temp file is created as `f`
and `pprof.StartCPUProfile` succeeds, `CPUProfile{Duration: d}.Capture()`
performs, after creating the file, exactly: start CPU sampling into `f`, sleep
`d`, stop CPU sampling, close `f`, in this order, whether or not the close
succeeds; and it returns after them. -/
theorem C9_cpu_effect_order (d : Duration) (e : Env) (f : String)
    (hd : d ≠ 0) (hf : e.tempFile = .ok f) (hs : e.startCPUProfile = none) :
    (CPUProfile.Capture ⟨d⟩ e).1 =
      [.tempFile "" "profile-", .startCPUProfile f, .sleep d, .stopCPUProfile,
        .close f] ∧
    ∃ path, (CPUProfile.Capture ⟨d⟩ e).2 = .returned path none := by
  cases hc : e.close <;> simp [CPUProfile.Capture, newTemp, hf, hs, hc, hd]

/-- C9 at a duration of 5 seconds, with a close that fails. -/
theorem C9_cpu_effect_order_witness :
    (5 * Second ≠ 0 ∧ envCloseFails.tempFile = .ok "/tmp/profile-123" ∧
      envCloseFails.startCPUProfile = none) ∧
    (CPUProfile.Capture ⟨5 * Second⟩ envCloseFails).1 =
      [.tempFile "" "profile-", .startCPUProfile "/tmp/profile-123",
        .sleep (5 * Second), .stopCPUProfile, .close "/tmp/profile-123"] ∧
    ∃ path, (CPUProfile.Capture ⟨5 * Second⟩ envCloseFails).2 = .returned path none :=
  ⟨⟨by decide, rfl, rfl⟩,
    C9_cpu_effect_order (5 * Second) envCloseFails "/tmp/profile-123"
      (by decide) rfl rfl⟩

/-! The capture loop -/

/-- The loop consumes a delivery of the notified signal by running one cycle,
and carries on with the remaining deliveries when the cycle ends in
`Status.waiting`. -/
theorem loop_cons_waiting (sig : Signal) (p : Profile) (e : Env)
    (rest : List (Signal × Env)) (ev : List Event) (h : cycle p e = (ev, .waiting)) :
    loop sig p ((sig, e) :: rest) = (ev ++ (loop sig p rest).1, (loop sig p rest).2) := by
  simp [loop, h]

/-- The loop ends with the process when a cycle ends in `Status.exited`. -/
theorem loop_cons_exited (sig : Signal) (p : Profile) (e : Env)
    (rest : List (Signal × Env)) (ev : List Event) (h : cycle p e = (ev, .exited)) :
    loop sig p ((sig, e) :: rest) = (ev, .exited) := by
  simp [loop, h]

/-- What the loop does after a failed capture, for every `Profile`: it logs the
error, then runs the viewer on the returned path all the same, and is back
waiting. -/
theorem cycle_after_capture_error (p : Profile) (e : Env) (eff : List Effect)
    (a m : String) (h : p.Capture e = (eff, .returned a (some m))) :
    cycle p e =
      ([.recv, .logPrintln "Starting to capture.",
        .capture eff (.returned a (some m)),
        .logPrintf ("Cannot capture profile: " ++ m),
        .logPrintf ("Starting go tool pprof " ++ a),
        .run ⟨"go", ["tool", "pprof", "-http=:", a]⟩
          (e.run ⟨"go", ["tool", "pprof", "-http=:", a]⟩)]
        ++ logIfErr "Cannot start pprof UI: "
            (e.run ⟨"go", ["tool", "pprof", "-http=:", a]⟩),
       .waiting) := by
  simp [cycle, h, logIfErr]

/-- C2 (code at the failing input): the write of the goroutine profile fails,
`GoRoutineProfile.Capture` returns a non-nil error, the loop logs it and then
still runs the viewer, on the empty path, where the claim asks for no viewer
launch in that cycle. -/
theorem C2_viewer_launched_after_capture_error :
    capture (GoRoutineProfile.toProfile {}) [(.SIGQUIT, envWriteFails)] =
      ([.notify 1 .SIGQUIT,
        .println "Send SIGQUIT (CTRL+\\) to the process to capture...",
        .recv,
        .logPrintln "Starting to capture.",
        .capture [.tempFile "" "profile-", .lookupWriteTo "goroutine" "/tmp/profile-123" 0]
          (.returned "" (some "write /tmp/profile-123: no space left on device")),
        .logPrintf
          "Cannot capture profile: write /tmp/profile-123: no space left on device",
        .logPrintf "Starting go tool pprof ",
        .run ⟨"go", ["tool", "pprof", "-http=:", ""]⟩ none],
       .waiting) := by
  decide

/-- C5: when `p.Capture()` returns the path `a` with a nil error, one delivery
of the trigger signal makes the loop call `p.Capture()` exactly once and then
run exactly one command, `go tool pprof -http=: a`, whose last argument is `a`;
the only thing that may follow is the log line for a failed viewer, and the
loop is back waiting. -/
theorem C5_one_trigger_one_capture_one_viewer (p : Profile) (e : Env)
    (eff : List Effect) (a : String) (h : p.Capture e = (eff, .returned a none)) :
    capture p [(.SIGQUIT, e)] =
      ([.notify 1 .SIGQUIT,
        .println "Send SIGQUIT (CTRL+\\) to the process to capture...",
        .recv,
        .logPrintln "Starting to capture.",
        .capture eff (.returned a none),
        .logPrintf ("Starting go tool pprof " ++ a),
        .run ⟨"go", ["tool", "pprof", "-http=:", a]⟩
          (e.run ⟨"go", ["tool", "pprof", "-http=:", a]⟩)]
        ++ logIfErr "Cannot start pprof UI: "
            (e.run ⟨"go", ["tool", "pprof", "-http=:", a]⟩),
       .waiting) := by
  simp [capture, loop, cycle, h, logIfErr]

/-- C5 for the goroutine variant at `envOk`: one capture, one viewer run on the
file the capture returned. -/
theorem C5_one_trigger_one_capture_one_viewer_witness :
    (GoRoutineProfile.toProfile {}).Capture envOk =
      ([.tempFile "" "profile-", .lookupWriteTo "goroutine" "/tmp/profile-123" 0,
        .close "/tmp/profile-123"], .returned "/tmp/profile-123" none) ∧
    capture (GoRoutineProfile.toProfile {}) [(.SIGQUIT, envOk)] =
      ([.notify 1 .SIGQUIT,
        .println "Send SIGQUIT (CTRL+\\) to the process to capture...",
        .recv,
        .logPrintln "Starting to capture.",
        .capture [.tempFile "" "profile-",
          .lookupWriteTo "goroutine" "/tmp/profile-123" 0, .close "/tmp/profile-123"]
          (.returned "/tmp/profile-123" none),
        .logPrintf ("Starting go tool pprof " ++ "/tmp/profile-123"),
        .run ⟨"go", ["tool", "pprof", "-http=:", "/tmp/profile-123"]⟩
          (envOk.run ⟨"go", ["tool", "pprof", "-http=:", "/tmp/profile-123"]⟩)]
        ++ logIfErr "Cannot start pprof UI: "
            (envOk.run ⟨"go", ["tool", "pprof", "-http=:", "/tmp/profile-123"]⟩),
       .waiting) :=
  ⟨rfl, C5_one_trigger_one_capture_one_viewer (GoRoutineProfile.toProfile {}) envOk
    _ "/tmp/profile-123" rfl⟩

/-- C6: in a cycle whose capture returned `(a, err)` and whose viewer command
fails with `m`, the loop runs the command once, logs `m`, and is back waiting:
the trace of the loop is that cycle followed by the loop on the remaining
deliveries, so the next trigger starts a new cycle with a new receive and a new
call of `p.Capture()`. -/
theorem C6_viewer_failure_keeps_loop (p : Profile) (e e2 : Env)
    (rest : List (Signal × Env)) (eff : List Effect) (a m : String) (err : GoError)
    (hcap : p.Capture e = (eff, .returned a err))
    (hrun : e.run ⟨"go", ["tool", "pprof", "-http=:", a]⟩ = some m) :
    cycle p e =
      ([.recv, .logPrintln "Starting to capture.", .capture eff (.returned a err)]
        ++ logIfErr "Cannot capture profile: " err
        ++ [.logPrintf ("Starting go tool pprof " ++ a),
            .run ⟨"go", ["tool", "pprof", "-http=:", a]⟩ (some m),
            .logPrintf ("Cannot start pprof UI: " ++ m)],
       .waiting) ∧
    loop .SIGQUIT p ((.SIGQUIT, e) :: rest) =
      ((cycle p e).1 ++ (loop .SIGQUIT p rest).1, (loop .SIGQUIT p rest).2) ∧
    ∃ t, loop .SIGQUIT p ((.SIGQUIT, e) :: (.SIGQUIT, e2) :: rest) =
      ((cycle p e).1 ++ [.recv, .logPrintln "Starting to capture.",
          .capture (p.Capture e2).1 (p.Capture e2).2] ++ t,
       (loop .SIGQUIT p ((.SIGQUIT, e2) :: rest)).2) := by
  have hc : cycle p e =
      ([.recv, .logPrintln "Starting to capture.", .capture eff (.returned a err)]
        ++ logIfErr "Cannot capture profile: " err
        ++ [.logPrintf ("Starting go tool pprof " ++ a),
            .run ⟨"go", ["tool", "pprof", "-http=:", a]⟩ (some m),
            .logPrintf ("Cannot start pprof UI: " ++ m)],
       .waiting) := by
    simp [cycle, hcap, hrun, logIfErr]
  have hl : ∀ r, loop .SIGQUIT p ((.SIGQUIT, e) :: r) =
      ((cycle p e).1 ++ (loop .SIGQUIT p r).1, (loop .SIGQUIT p r).2) := by
    intro r
    rw [loop_cons_waiting .SIGQUIT p e r _ hc, hc]
  refine ⟨hc, hl rest, ?_⟩
  have h2 : ∃ t, (loop .SIGQUIT p ((.SIGQUIT, e2) :: rest)).1 =
      [.recv, .logPrintln "Starting to capture.",
        .capture (p.Capture e2).1 (p.Capture e2).2] ++ t := by
    rcases hp : p.Capture e2 with ⟨eff2, r2⟩
    cases r2 <;> simp [loop, cycle, hp]
  obtain ⟨t, ht⟩ := h2
  refine ⟨t, ?_⟩
  rw [hl, ht]
  simp

/-- C6 for the goroutine variant: the viewer fails in the first cycle
(`envRunFails`), and a second trigger (`envOk`) starts the next cycle. -/
theorem C6_viewer_failure_keeps_loop_witness :
    ((GoRoutineProfile.toProfile {}).Capture envRunFails =
        ([.tempFile "" "profile-", .lookupWriteTo "goroutine" "/tmp/profile-123" 0,
          .close "/tmp/profile-123"], .returned "/tmp/profile-123" none) ∧
      envRunFails.run ⟨"go", ["tool", "pprof", "-http=:", "/tmp/profile-123"]⟩ =
        some "exit status 1") ∧
    cycle (GoRoutineProfile.toProfile {}) envRunFails =
      ([.recv, .logPrintln "Starting to capture.",
        .capture [.tempFile "" "profile-",
          .lookupWriteTo "goroutine" "/tmp/profile-123" 0, .close "/tmp/profile-123"]
          (.returned "/tmp/profile-123" none)]
        ++ logIfErr "Cannot capture profile: " none
        ++ [.logPrintf ("Starting go tool pprof " ++ "/tmp/profile-123"),
            .run ⟨"go", ["tool", "pprof", "-http=:", "/tmp/profile-123"]⟩
              (some "exit status 1"),
            .logPrintf ("Cannot start pprof UI: " ++ "exit status 1")],
       .waiting) ∧
    loop .SIGQUIT (GoRoutineProfile.toProfile {}) ((.SIGQUIT, envRunFails) :: []) =
      ((cycle (GoRoutineProfile.toProfile {}) envRunFails).1 ++
          (loop .SIGQUIT (GoRoutineProfile.toProfile {}) []).1,
        (loop .SIGQUIT (GoRoutineProfile.toProfile {}) []).2) ∧
    ∃ t, loop .SIGQUIT (GoRoutineProfile.toProfile {})
        ((.SIGQUIT, envRunFails) :: (.SIGQUIT, envOk) :: []) =
      ((cycle (GoRoutineProfile.toProfile {}) envRunFails).1 ++
          [.recv, .logPrintln "Starting to capture.",
            .capture ((GoRoutineProfile.toProfile {}).Capture envOk).1
              ((GoRoutineProfile.toProfile {}).Capture envOk).2] ++ t,
        (loop .SIGQUIT (GoRoutineProfile.toProfile {}) ((.SIGQUIT, envOk) :: [])).2) :=
  ⟨⟨rfl, rfl⟩,
    C6_viewer_failure_keeps_loop (GoRoutineProfile.toProfile {}) envRunFails envOk []
      _ "/tmp/profile-123" "exit status 1" none rfl rfl⟩

/-- C7: when `ioutil.TempFile` fails with `m`, `Capture()` of each of the seven
variants calls `log.Fatalf` right after it and the process exits: no profiling
primitive is called and nothing is returned; the loop that made the call ends
there, without running a viewer, and later triggers find no process. -/
theorem C7_temp_failure_is_fatal (e : Env) (m : String) (d : Duration)
    (h : e.tempFile = .error m) :
    ∀ p ∈ variants d,
      p.Capture e =
        ([.tempFile "" "profile-",
          .fatalf ("Cannot create new temp profile file: " ++ m)], .exited) ∧
      ∀ rest, capture p ((.SIGQUIT, e) :: rest) =
        ([.notify 1 .SIGQUIT,
          .println "Send SIGQUIT (CTRL+\\) to the process to capture...",
          .recv,
          .logPrintln "Starting to capture.",
          .capture [.tempFile "" "profile-",
            .fatalf ("Cannot create new temp profile file: " ++ m)] .exited],
         .exited) := by
  intro p hp
  have hcap : p.Capture e =
      ([.tempFile "" "profile-",
        .fatalf ("Cannot create new temp profile file: " ++ m)], .exited) := by
    simp only [variants, List.mem_cons, List.mem_singleton, List.not_mem_nil,
      or_false] at hp
    rcases hp with hp | hp | hp | hp | hp | hp | hp <;> subst hp
    · simp [CPUProfile.toProfile, CPUProfile.Capture, newTemp, h]
    · simp [HeapProfile.toProfile, HeapProfile.Capture, newTemp, h]
    · simp [GoRoutineProfile.toProfile, GoRoutineProfile.Capture, newTemp, h]
    · simp [ThreadCreateProfile.toProfile, ThreadCreateProfile.Capture, newTemp, h]
    · simp [AllocsProfile.toProfile, AllocsProfile.Capture, newTemp, h]
    · simp [BlockProfile.toProfile, BlockProfile.Capture, newTemp, h]
    · simp [MutexProfile.toProfile, MutexProfile.Capture, newTemp, h]
  refine ⟨hcap, ?_⟩
  intro rest
  simp [capture, loop, cycle, hcap]

/-- C7 for the heap variant at `envTempFails`, with a second trigger pending. -/
theorem C7_temp_failure_is_fatal_witness :
    envTempFails.tempFile = .error "open /tmp/profile-123: permission denied" ∧
    HeapProfile.toProfile {} ∈ variants 0 ∧
    (HeapProfile.toProfile {}).Capture envTempFails =
      ([.tempFile "" "profile-",
        .fatalf ("Cannot create new temp profile file: " ++
          "open /tmp/profile-123: permission denied")], .exited) ∧
    capture (HeapProfile.toProfile {}) ((.SIGQUIT, envTempFails) :: [(.SIGQUIT, envOk)]) =
      ([.notify 1 .SIGQUIT,
        .println "Send SIGQUIT (CTRL+\\) to the process to capture...",
        .recv,
        .logPrintln "Starting to capture.",
        .capture [.tempFile "" "profile-",
          .fatalf ("Cannot create new temp profile file: " ++
            "open /tmp/profile-123: permission denied")] .exited],
       .exited) :=
  have hm : HeapProfile.toProfile {} ∈ variants 0 := by simp [variants]
  have h := C7_temp_failure_is_fatal envTempFails
    "open /tmp/profile-123: permission denied" 0 rfl (HeapProfile.toProfile {}) hm
  ⟨rfl, hm, h.1, h.2 [(.SIGQUIT, envOk)]⟩

/-- C8 (code at the failing input): the doc comment of `Capture` says the
profiles are captured at SIGINT, yet the signal handed to `signal.Notify` is
SIGQUIT, and a SIGINT delivered to the process starts no cycle: the goroutine
receives nothing and calls nothing after its start-up message. -/
theorem C8_sigint_starts_no_cycle :
    (Capture (GoRoutineProfile.toProfile {}) [(.SIGINT, envOk)]).1 =
      [.notify 1 .SIGQUIT,
        .println "Send SIGQUIT (CTRL+\\) to the process to capture..."] ∧
    Event.notify 1 .SIGINT ∉
      (Capture (GoRoutineProfile.toProfile {}) [(.SIGINT, envOk)]).1 ∧
    Event.recv ∉ (Capture (GoRoutineProfile.toProfile {}) [(.SIGINT, envOk)]).1 := by
  decide

/-- The trigger of the code as it stands: the signal `capture` subscribes to is
SIGQUIT, which its start-up message names; a delivered SIGQUIT starts a capture
cycle (receive, "Starting to capture.", call of `p.Capture()`), and a delivery
of any other signal starts none. -/
theorem capture_trigger_is_sigquit (p : Profile) (e : Env) :
    (∀ ds, ∃ t, (Capture p ds).1 =
      [.notify 1 .SIGQUIT,
        .println "Send SIGQUIT (CTRL+\\) to the process to capture..."] ++ t) ∧
    (∀ rest, ∃ t, (Capture p ((.SIGQUIT, e) :: rest)).1 =
      [.notify 1 .SIGQUIT,
        .println "Send SIGQUIT (CTRL+\\) to the process to capture...",
        .recv,
        .logPrintln "Starting to capture.",
        .capture (p.Capture e).1 (p.Capture e).2] ++ t) ∧
    (∀ s, s ≠ Signal.SIGQUIT → (Capture p [(s, e)]).1 =
      [.notify 1 .SIGQUIT,
        .println "Send SIGQUIT (CTRL+\\) to the process to capture..."]) := by
  refine ⟨?_, ?_, ?_⟩
  · intro ds
    exact ⟨(loop .SIGQUIT p ds).1, by simp [Capture, capture]⟩
  · intro rest
    rcases hp : p.Capture e with ⟨eff, r⟩
    cases r <;> simp [Capture, capture, loop, cycle, hp]
  · intro s hs
    simp [Capture, capture, loop, hs]

/-- The trigger for the goroutine variant at `envOk`, with SIGTERM as the other
signal. -/
theorem capture_trigger_is_sigquit_at_envOk :
    Signal.SIGTERM ≠ Signal.SIGQUIT ∧
    (∃ t, (Capture (GoRoutineProfile.toProfile {}) [(.SIGQUIT, envOk)]).1 =
      [.notify 1 .SIGQUIT,
        .println "Send SIGQUIT (CTRL+\\) to the process to capture...",
        .recv,
        .logPrintln "Starting to capture.",
        .capture ((GoRoutineProfile.toProfile {}).Capture envOk).1
          ((GoRoutineProfile.toProfile {}).Capture envOk).2] ++ t) ∧
    (Capture (GoRoutineProfile.toProfile {}) [(.SIGTERM, envOk)]).1 =
      [.notify 1 .SIGQUIT,
        .println "Send SIGQUIT (CTRL+\\) to the process to capture..."] :=
  ⟨by decide,
    (capture_trigger_is_sigquit (GoRoutineProfile.toProfile {}) envOk).2.1 [],
    (capture_trigger_is_sigquit (GoRoutineProfile.toProfile {}) envOk).2.2 .SIGTERM
      (by decide)⟩

/-- C10: when the temp file is created as `f` and `f.Close()` fails, each of
the seven variants whose own profiling primitive succeeded returns the empty
path with a nil error; and a cycle whose capture returned `("", nil)` logs no
capture error and runs the viewer `go tool pprof -http=: ""`, with the empty
string as the artifact path. -/
theorem C10_close_failure_returns_empty_path (e : Env) (f m : String)
    (hf : e.tempFile = .ok f) (hc : e.close = some m) :
    ((∀ d : Duration, e.startCPUProfile = none →
        (CPUProfile.Capture ⟨d⟩ e).2 = .returned "" none) ∧
      (e.writeHeapProfile = none →
        (HeapProfile.Capture {} e).2 = .returned "" none) ∧
      (e.writeTo "goroutine" = none →
        (GoRoutineProfile.Capture {} e).2 = .returned "" none) ∧
      (e.writeTo "threadcreate" = none →
        (ThreadCreateProfile.Capture {} e).2 = .returned "" none) ∧
      (e.writeTo "allocs" = none →
        (AllocsProfile.Capture {} e).2 = .returned "" none) ∧
      (e.writeTo "block" = none →
        (BlockProfile.Capture {} e).2 = .returned "" none) ∧
      (e.writeTo "mutex" = none →
        (MutexProfile.Capture {} e).2 = .returned "" none)) ∧
    (∀ (p : Profile) (eff : List Effect), p.Capture e = (eff, .returned "" none) →
      cycle p e =
        ([.recv, .logPrintln "Starting to capture.", .capture eff (.returned "" none),
          .logPrintf "Starting go tool pprof ",
          .run ⟨"go", ["tool", "pprof", "-http=:", ""]⟩
            (e.run ⟨"go", ["tool", "pprof", "-http=:", ""]⟩)]
          ++ logIfErr "Cannot start pprof UI: "
              (e.run ⟨"go", ["tool", "pprof", "-http=:", ""]⟩),
         .waiting)) := by
  refine ⟨⟨?_, ?_, ?_, ?_, ?_, ?_, ?_⟩, ?_⟩
  · intro d hp
    simp [CPUProfile.Capture, newTemp, hf, hc, hp]
  · intro hp
    simp [HeapProfile.Capture, newTemp, hf, hc, hp]
  · intro hp
    simp [GoRoutineProfile.Capture, newTemp, hf, hc, hp]
  · intro hp
    simp [ThreadCreateProfile.Capture, newTemp, hf, hc, hp]
  · intro hp
    simp [AllocsProfile.Capture, newTemp, hf, hc, hp]
  · intro hp
    simp [BlockProfile.Capture, newTemp, hf, hc, hp]
  · intro hp
    simp [MutexProfile.Capture, newTemp, hf, hc, hp]
  · intro p eff hp
    simp [cycle, hp, logIfErr]

/-- C10 at `envCloseFails`: the mutex capture returns `("", nil)` and its cycle
runs the viewer on the empty path. -/
theorem C10_close_failure_returns_empty_path_witness :
    (envCloseFails.tempFile = .ok "/tmp/profile-123" ∧
      envCloseFails.close = some "close /tmp/profile-123: input/output error" ∧
      envCloseFails.writeTo "mutex" = none) ∧
    (MutexProfile.Capture {} envCloseFails).2 = .returned "" none ∧
    cycle (MutexProfile.toProfile {}) envCloseFails =
      ([.recv, .logPrintln "Starting to capture.",
        .capture [.tempFile "" "profile-",
          .lookupWriteTo "mutex" "/tmp/profile-123" 0, .close "/tmp/profile-123"]
          (.returned "" none),
        .logPrintf "Starting go tool pprof ",
        .run ⟨"go", ["tool", "pprof", "-http=:", ""]⟩
          (envCloseFails.run ⟨"go", ["tool", "pprof", "-http=:", ""]⟩)]
        ++ logIfErr "Cannot start pprof UI: "
            (envCloseFails.run ⟨"go", ["tool", "pprof", "-http=:", ""]⟩),
       .waiting) :=
  have h := C10_close_failure_returns_empty_path envCloseFails "/tmp/profile-123"
    "close /tmp/profile-123: input/output error" rfl rfl
  ⟨⟨rfl, rfl, rfl⟩, h.1.2.2.2.2.2.2 rfl,
    h.2 (MutexProfile.toProfile {}) _ rfl⟩

end Autopprof
